import Mathlib

/-!
Verification of the query planning and execution engine of the SEO agent
(`seo_agent.py`).  The Python module is shallowly embedded: dataframes become
explicit lists of rows, plans become an option-field record (a Python dict with
the five recognised keys), and code that can raise returns `Except String`.
Floating point numbers are modelled as exact rationals; pandas NaN is the
`Value.none` scalar.
-/

namespace SeoSpec

/-- Scalar cell / condition value.  `Value.none` models pandas NaN (and Python
None); booleans and numbers are numeric for comparison purposes, mirroring
numpy where `False == 0` and `True == 1`. -/
inductive Value where
  | none
  | bool (b : Bool)
  | num (q : ℚ)
  | str (s : String)
deriving DecidableEq, Repr

/-- Numeric view of a scalar: booleans are 0/1, numbers themselves, NaN and
strings have no numeric view. -/
def Value.toQ? : Value → Option ℚ
  | .bool b => some (if b then 1 else 0)
  | .num q => some q
  | _ => Option.none

/-- Numeric sort key with default 0, used only under numeric-column
hypotheses. -/
def Value.toQD (v : Value) : ℚ := (v.toQ?).getD 0

/-- Elementwise `==` as pandas evaluates `df[col] == value`: numeric kinds
compare numerically, strings compare as strings, any mismatched pair (and any
NaN operand) compares unequal without raising. -/
def cmpEq (a b : Value) : Bool :=
  match a.toQ?, b.toQ? with
  | some x, some y => x == y
  | _, _ =>
    match a, b with
    | .str s, .str t => s == t
    | _, _ => false

/-- Elementwise `>` as pandas evaluates `df[col] > value`: NaN compares false,
numeric kinds compare numerically, strings lexicographically, and an
order comparison between a string and a numeric kind raises `TypeError`. -/
def cmpGt (a b : Value) : Except String Bool :=
  match a, b with
  | .none, _ => .ok false
  | _, .none => .ok false
  | .str s, .str t => .ok (decide (t < s))
  | .str _, _ => .error "TypeError: string compared with numeric"
  | _, .str _ => .error "TypeError: string compared with numeric"
  | a, b => .ok (decide (b.toQD < a.toQD))

/-- Elementwise `<` (pandas `df[col] < value`). -/
def cmpLt (a b : Value) : Except String Bool := cmpGt b a

/-- One `{field, op, value}` condition of a filter plan. -/
structure Cond where
  field : String
  op : String
  value : Value
deriving DecidableEq, Repr

/-- The plan dict.  Each field is `some` exactly when the corresponding key is
present in the Python dict (`"operation" in plan` is key presence). -/
structure PlanObj where
  operation : Option String
  conditions : Option (List Cond)
  logic : Option String
  field : Option String
  n : Option Int
deriving DecidableEq, Repr

/-- The empty dict. -/
def PlanObj.empty : PlanObj :=
  ⟨Option.none, Option.none, Option.none, Option.none, Option.none⟩

/-- A draft plan value as returned by `json.loads`: either not a dict at all,
or a dict (restricted to the recognised keys and value shapes). -/
inductive Draft where
  | notDict
  | dict (p : PlanObj)
deriving DecidableEq, Repr

/-- `FIELD_MAP` from `seo_agent.py`: semantic field key to dataframe column. -/
def FIELD_MAP : List (String × String) :=
  [("https", "uses_https"),
   ("indexability", "is_indexable"),
   ("title_length", "Title_1_Length"),
   ("meta_description_length", "Meta_Description_1_Length"),
   ("status_code", "Status_Code")]

/-- Equality of `Except` values is decidable (needed to settle concrete runs
of the embedded fallible operations by `decide`). -/
instance [DecidableEq ε] [DecidableEq α] : DecidableEq (Except ε α) := fun a b => by
  cases a <;> cases b
  case error.error e f =>
    exact if h : e = f then .isTrue (by rw [h])
      else .isFalse (by intro c; injection c; exact h ‹_›)
  case error.ok e x => exact .isFalse (by intro c; exact Except.noConfusion c)
  case ok.error x e => exact .isFalse (by intro c; exact Except.noConfusion c)
  case ok.ok x y =>
    exact if h : x = y then .isTrue (by rw [h])
      else .isFalse (by intro c; injection c; exact h ‹_›)

/-- ASCII lowercasing of one character (Python `str.lower` on the ASCII
question texts this system handles). -/
def lowCh (c : Char) : Char :=
  if 'A' ≤ c ∧ c ≤ 'Z' then Char.ofNat (c.toNat + 32) else c

/-- `user_query.lower()`. -/
def lowerStr (s : String) : String := ⟨s.data.map lowCh⟩

/-- Containment of `pat` as a contiguous run of `s`, by scanning suffixes. -/
def listContains (pat : List Char) : List Char → Bool
  | [] => pat.isEmpty
  | c :: rest => (List.take pat.length (c :: rest) == pat) || listContains pat rest

/-- Python substring test `pat in s`. -/
def strContains (s pat : String) : Bool := listContains pat.toList s.toList

/-- `_recover_conditions_from_query`: the narrow lexical rules, applied to the
lowercased question text. -/
def recoverConditionsFromQuery (userQuery : String) : List Cond × String :=
  let q := lowerStr userQuery
  let logic := if strContains q " or " then "or" else "and"
  let conditions :=
    (if strContains q "https" &&
        (strContains q "do not" || strContains q "not use" || strContains q "without")
     then [Cond.mk "https" "=" (.bool false)] else []) ++
    (if strContains q "title" && strContains q "60"
     then [Cond.mk "title_length" ">" (.num 60)] else []) ++
    (if strContains q "meta" && (strContains q "missing" || strContains q "0")
     then [Cond.mk "meta_description_length" "=" (.num 0)] else []) ++
    (if strContains q "non-indexable" || strContains q "not indexable"
     then [Cond.mk "indexability" "=" (.bool false)] else [])
  (conditions, logic)

/-- `_recover_top_n_field`: lexical ranking-field cues. -/
def recoverTopNField (userQuery : String) : Option String :=
  let q := lowerStr userQuery
  if strContains q "title" then some "title_length"
  else if strContains q "meta" then some "meta_description_length"
  else if strContains q "status" || strContains q "error" then some "status_code"
  else Option.none

/-- Operation inference of `_validate_and_normalize_plan` (lines 206-220),
applied only when the draft has no `operation` key. -/
def inferOperation (p : PlanObj) (userQuery : String) : String :=
  if p.conditions.isSome then "filter"
  else if p.field.isSome && p.n.isSome then "top_n"
  else if p.field.isSome then "metric"
  else
    let q := lowerStr userQuery
    if strContains q "top" then "top_n"
    else if strContains q "group" then "groupby"
    else "filter"

/-- The FILTER block of the validator: lexical recovery when `conditions` is
missing or falsy, `logic` defaulted to `"and"`, and a hard failure when no
condition is available. -/
def filterStep (p : PlanObj) (userQuery : String) : Except String PlanObj :=
  if p.operation = some "filter" then
    let p2 :=
      if (p.conditions.getD []).isEmpty then
        let r := recoverConditionsFromQuery userQuery
        { p with conditions := some r.1, logic := some r.2 }
      else p
    let p3 := if p2.logic.isSome then p2 else { p2 with logic := some "and" }
    if (p3.conditions.getD []).isEmpty then
      .error "Filter inferred but no conditions found."
    else .ok p3
  else .ok p

/-- The TOP-N block of the validator: field recovery from lexical cues and the
`n` default of 10. -/
def topnStep (p : PlanObj) (userQuery : String) : Except String PlanObj :=
  if p.operation = some "top_n" then
    match p.field with
    | some _ => .ok { p with n := some (p.n.getD 10) }
    | Option.none =>
      match recoverTopNField userQuery with
      | some f => .ok { p with field := some f, n := some (p.n.getD 10) }
      | Option.none => .error "Top-N requires a ranking field and none could be inferred."
  else .ok p

/-- The GROUPBY / METRIC block of the validator: `field` is mandatory. -/
def groupMetricStep (p : PlanObj) : Except String PlanObj :=
  if p.operation = some "groupby" || p.operation = some "metric" then
    if p.field.isSome then .ok p
    else .error ((p.operation.getD "") ++ " requires field")
  else .ok p

/-- `_validate_and_normalize_plan`: a non-dict draft is replaced by the empty
dict; the operation is inferred if absent; then the three per-operation blocks
run in sequence (at most one applies, since the operation is fixed). -/
def validateAndNormalizePlan (draft : Draft) (userQuery : String) :
    Except String PlanObj := do
  let p0 := match draft with | .notDict => PlanObj.empty | .dict p => p
  let p1 :=
    if p0.operation.isSome then p0
    else { p0 with operation := some (inferOperation p0 userQuery) }
  let p2 ← filterStep p1 userQuery
  let p3 ← topnStep p2 userQuery
  let p4 ← groupMetricStep p3
  return p4

/-- A dataframe: a fixed column schema and a list of rows, each row an
association list from column name to cell value.  A cell not listed in a row
reads as NaN. -/
structure Df where
  schema : List String
  rows : List (List (String × Value))
deriving DecidableEq, Repr

/-- Cell access with the pandas missing value. -/
def getCellD (r : List (String × Value)) (c : String) : Value :=
  (r.lookup c).getD .none

/-- Execution results: a projected dataframe, a dict of group counts, or the
metric dict with its single percentage entry (`Option.none` is NaN).  The empty
dict literal of the source is `.dict []`. -/
inductive ExecResult where
  | table (cols : List String) (rows : List (List Value))
  | dict (entries : List (Value × Nat))
  | pct (p : Option ℚ)
deriving DecidableEq, Repr

/-- `someRows[[cols]]`: pandas raises `KeyError` when any requested column is
missing from the dataframe schema, otherwise projects each row onto `cols`. -/
def projectRows (df : Df) (rows : List (List (String × Value)))
    (cols : List String) : Except String ExecResult :=
  if cols.all (fun c => df.schema.contains c) then
    .ok (.table cols (rows.map (fun r => cols.map (fun c => getCellD r c))))
  else .error "KeyError: missing projection column"

/-- The per-condition mask of the filter branch (lines 270-280): an
unresolvable field or a column absent from the dataframe contributes no mask
(`continue`), as does an op outside `=`, `>`, `<`; otherwise the elementwise
comparison of the column against the condition value (which can raise). -/
def condMask (df : Df) (c : Cond) : Except String (Option (List Bool)) :=
  match FIELD_MAP.lookup c.field with
  | Option.none => .ok Option.none
  | some col =>
    if df.schema.contains col then
      if c.op = "=" then
        .ok (some (df.rows.map (fun r => cmpEq (getCellD r col) c.value)))
      else if c.op = ">" then
        (df.rows.mapM (fun r => cmpGt (getCellD r col) c.value)).map some
      else if c.op = "<" then
        (df.rows.mapM (fun r => cmpLt (getCellD r col) c.value)).map some
      else .ok Option.none
    else .ok Option.none

/-- All masks produced by the condition loop, in order. -/
def buildMasks (df : Df) : List Cond → Except String (List (List Bool))
  | [] => .ok []
  | c :: cs => do
    let m? ← condMask df c
    let ms ← buildMasks df cs
    match m? with
    | some m => return m :: ms
    | Option.none => return ms

/-- Pointwise conjunction (`final_mask &= m`). -/
def andMask (a b : List Bool) : List Bool := a.zipWith (· && ·) b

/-- Pointwise disjunction (`final_mask |= m`). -/
def orMask (a b : List Bool) : List Bool := a.zipWith (· || ·) b

/-- Boolean-mask row selection `df[final_mask]`, order preserving. -/
def applyMask (rows : List α) (mask : List Bool) : List α :=
  ((rows.zip mask).filter (fun p => p.2)).map (fun p => p.1)

/-- Comparison key order used by `sort_values`: the numeric view with default
0 (the claims only use it on columns whose values are numeric or boolean). -/
def keyLe (key : α → Value) (a b : α) : Prop := (key a).toQD ≤ (key b).toQD

instance (key : α → Value) : DecidableRel (keyLe key) := fun a b => by
  unfold keyLe
  infer_instance

instance (key : α → Value) : IsTotal α (keyLe key) :=
  ⟨fun a b => le_total ((key a).toQD) ((key b).toQD)⟩

instance (key : α → Value) : IsTrans α (keyLe key) :=
  ⟨fun _ _ _ h1 h2 => le_trans h1 h2⟩

/-- `df.sort_values(col, ascending=False)`.  pandas `nargsort` separates NaN
keys (placed last for the default `na_position`), reverses the remaining rows,
argsorts them ascending and reverses the result.  The source leaves the
ascending kernel at the pandas default `kind=quicksort` (numpy introsort),
whose tie order is unspecified and not stable in general; this executable
model has to pick some kernel and uses an insertion sort, which coincides
with numpy only below its small-array insertion-sort cutoff.  Consequently no
theorem in this development relies on the tie order of this definition: the
order of equal keys here is a modelling choice, not a property of the
program. -/
def sortValuesDesc (key : α → Value) (l : List α) : List α :=
  let nonNan := l.filter (fun r => !(key r == Value.none))
  let nans := l.filter (fun r => key r == Value.none)
  (List.insertionSort (keyLe key) nonNan.reverse).reverse ++ nans

/-- `head(n)`: the first `n` rows for `n ≥ 0`; pandas returns all but the last
`|n|` rows for negative `n`. -/
def headN (l : List α) (n : Int) : List α :=
  if 0 ≤ n then l.take n.toNat else l.take (l.length - (-n).toNat)

/-- Group sizes of `df.groupby(col).size().to_dict()`: NaN keys are dropped
(`dropna=True`), every other distinct value is mapped to its row count.
Entries are kept in first-appearance order; pandas emits them sorted by key,
but Python dict equality ignores entry order. -/
def countsOf (ks : List Value) : List (Value × Nat) :=
  ks.foldl
    (fun acc k =>
      if acc.any (fun p => p.1 == k) then
        acc.map (fun p => if p.1 == k then (p.1, p.2 + 1) else p)
      else acc ++ [(k, 1)])
    []

/-- `df[col].mean()` for the metric branch: strings make the mean raise,
NaN cells are skipped (`skipna`), an empty column yields NaN
(`Option.none`), otherwise the arithmetic mean of the numeric views. -/
def meanCol (vs : List Value) : Except String (Option ℚ) :=
  if vs.any (fun v => match v with | .str _ => true | _ => false) then
    .error "TypeError: could not compute mean of object column"
  else
    let nums := (vs.filter (fun v => !(v == Value.none))).map Value.toQD
    if nums.isEmpty then .ok Option.none
    else .ok (some (nums.sum / nums.length))

/-- Round to nearest integer, ties to even — Python `round` on an exact
value. -/
def roundHalfEven (x : ℚ) : ℤ :=
  let f := ⌊x⌋
  let r := x - f
  if r < 1 / 2 then f
  else if 1 / 2 < r then f + 1
  else if 2 ∣ f then f else f + 1

/-- Python `round(v, 2)` on an exact value. -/
def pyRound2 (v : ℚ) : ℚ := (roundHalfEven (v * 100) : ℚ) / 100

/-- `_execute_plan` (lines 261-324): the four operation branches, with every
Python exception surfaced as `.error`.  Dict key accesses `plan["conditions"]`
and `plan["field"]` raise `KeyError` when the key is absent; `df.groupby(None)`
raises `TypeError`; column access on a missing column raises `KeyError`. -/
def executePlan (df : Df) (plan : PlanObj) : Except String ExecResult :=
  if plan.operation = some "filter" then
    match plan.conditions with
    | Option.none => .error "KeyError: conditions"
    | some conds => do
      let masks ← buildMasks df conds
      match masks with
      | [] => projectRows df df.rows ["Address"]
      | m :: ms =>
        let finalMask :=
          if plan.logic.getD "and" = "or" then ms.foldl orMask m
          else ms.foldl andMask m
        projectRows df (applyMask df.rows finalMask) ["Address"]
  else if plan.operation = some "top_n" then
    match plan.field with
    | Option.none => .error "KeyError: field"
    | some f =>
      let n := plan.n.getD 10
      match FIELD_MAP.lookup f with
      | Option.none => .ok (.dict [])
      | some col =>
        if df.schema.contains col then
          let top := headN (sortValuesDesc (fun r => getCellD r col) df.rows) n
          projectRows df top ["Address", col]
        else .ok (.dict [])
  else if plan.operation = some "groupby" then
    match plan.field with
    | Option.none => .error "KeyError: field"
    | some f =>
      match FIELD_MAP.lookup f with
      | Option.none => .error "TypeError: groupby requires by or level"
      | some col =>
        if df.schema.contains col then
          .ok (.dict (countsOf
            ((df.rows.map (fun r => getCellD r col)).filter
              (fun v => !(v == Value.none)))))
        else .error ("KeyError: " ++ col)
  else if plan.operation = some "metric" then
    match plan.field with
    | Option.none => .error "KeyError: field"
    | some f =>
      match FIELD_MAP.lookup f with
      | Option.none => .error "KeyError: None"
      | some col =>
        if df.schema.contains col then do
          let m ← meanCol (df.rows.map (fun r => getCellD r col))
          return .pct (m.map (fun v => pyRound2 (v * 100)))
        else .error ("KeyError: " ++ col)
  else .ok (.dict [])

/-- Replacement of every non-overlapping occurrence of `pat` (scanning left to
right, as Python `str.replace`), driven by a fuel argument so that the
recursion is structural. -/
def replaceAllGo (pat rep : List Char) : Nat → List Char → List Char
  | 0, s => s
  | _ + 1, [] => []
  | fuel + 1, c :: rest =>
    if pat ≠ [] && ((c :: rest).take pat.length == pat) then
      rep ++ replaceAllGo pat rep fuel ((c :: rest).drop pat.length)
    else c :: replaceAllGo pat rep fuel rest

/-- Python `s.replace(pat, rep)`. -/
def replaceAll (s pat rep : String) : String :=
  ⟨replaceAllGo pat.data rep.data s.data.length s.data⟩

/-- Whitespace test of Python `str.strip` (the whitespace found in model
output). -/
def isSpaceCh (c : Char) : Bool :=
  c == ' ' || c == '\t' || c == '\n' || c == '\r'

/-- Python `s.strip()`. -/
def stripStr (s : String) : String :=
  ⟨((s.data.dropWhile isSpaceCh).reverse.dropWhile isSpaceCh).reverse⟩

/-- The markdown-fence cleanup of `_plan_query` before `json.loads`. -/
def cleanPlanText (s : String) : String :=
  stripStr (replaceAll (replaceAll s "```json" "") "```" "")

/-- One loop iteration of `_plan_query`: a falsy or whitespace-only response
is skipped; otherwise the cleaned text is parsed.  `parse` abstracts
`json.loads`, returning `Option.none` on `JSONDecodeError`. -/
def synthStep (parse : String → Option Draft) (t : String) : Option Draft :=
  if (stripStr t).data = [] then Option.none else parse (cleanPlanText t)

/-- The attempt loop of `_plan_query`: `left` attempts remain and `calls`
collaborator calls were already made. -/
def planQueryAux (parse : String → Option Draft) (resp : Nat → String) :
    Nat → Nat → Except String Draft × Nat
  | 0, calls => (.error "Failed to generate a valid query plan.", calls)
  | left + 1, calls =>
    match synthStep parse (resp calls) with
    | some p => (.ok p, calls + 1)
    | Option.none => planQueryAux parse resp left (calls + 1)

/-- `_plan_query` (lines 163-191): three attempts over the abstract
collaborator `resp`; the second component counts collaborator calls made. -/
def planQuery (parse : String → Option Draft) (resp : Nat → String) :
    Except String Draft × Nat :=
  planQueryAux parse resp 3 0

/-! ## Concrete inputs for the claims -/

/-- A dataset with a normal identity and title column but without the
`uses_https` feature column. -/
def c1df : Df :=
  ⟨["Address", "Title_1_Length"],
   [[("Address", .str "https://a.example"), ("Title_1_Length", .num 10)],
    [("Address", .str "https://b.example"), ("Title_1_Length", .num 80)]]⟩

/-- The empty dataset of the source: a failed load yields a dataframe with no
columns and no rows, passed through normalisation and enrichment unchanged. -/
def c2emptyDf : Df := ⟨[], []⟩

/-- A validated metric plan over the semantic `https` field. -/
def c2metricPlan : PlanObj :=
  ⟨some "metric", Option.none, Option.none, some "https", Option.none⟩

/-- A validated filter plan with one resolvable condition. -/
def c2filterPlan : PlanObj :=
  ⟨some "filter", some [⟨"https", "=", .bool false⟩], some "and", Option.none, Option.none⟩

/-- A validated top-n plan. -/
def c2topnPlan : PlanObj :=
  ⟨some "top_n", Option.none, Option.none, some "title_length", some 3⟩

/-- A validated groupby plan over the semantic `status_code` field. -/
def c2groupbyPlan : PlanObj :=
  ⟨some "groupby", Option.none, Option.none, some "status_code", Option.none⟩

/-- The question text of the validator example in the spec. -/
def c3q : String := "show me pages with title over 60 and https missing"

/-- A filter draft with explicitly supplied logic but no conditions. -/
def c7draft : PlanObj :=
  ⟨some "filter", Option.none, some "or", Option.none, Option.none⟩

/-- A question whose lexical recovery yields one condition and logic and. -/
def c7q : String := "pages with title 60"

/-! ## C1 -/

/-- C1: the claim says an unresolvable `groupby` or `metric` field is treated
as column absent and never aborts execution.  The code disagrees: a semantic
key outside the Field Catalog makes `groupby` call `df.groupby(None)`
(`TypeError`) and `metric` evaluate `df[None]` (`KeyError`), and a catalog key
whose column is missing from the dataframe raises `KeyError` in both branches.
This theorem evaluates the engine at those failing inputs. -/
theorem c1_groupby_metric_unresolvable_field_raises :
    executePlan c1df
      ⟨some "groupby", Option.none, Option.none, some "word_count", Option.none⟩ =
      .error "TypeError: groupby requires by or level" ∧
    executePlan c1df
      ⟨some "metric", Option.none, Option.none, some "word_count", Option.none⟩ =
      .error "KeyError: None" ∧
    executePlan c1df
      ⟨some "groupby", Option.none, Option.none, some "https", Option.none⟩ =
      .error "KeyError: uses_https" ∧
    executePlan c1df
      ⟨some "metric", Option.none, Option.none, some "https", Option.none⟩ =
      .error "KeyError: uses_https" := by
  refine ⟨rfl, rfl, rfl, rfl⟩

/-! ## C2 -/

/-- C2 counterexample: against the empty dataset, the metric operation does not
return a percentage of 0.0 without raising; it raises a missing-column error,
because the empty dataframe produced by a failed load has no columns at all. -/
theorem c2_empty_dataset_metric_raises :
    executePlan c2emptyDf c2metricPlan = .error "KeyError: uses_https" ∧
    executePlan c2emptyDf c2metricPlan ≠ .ok (.pct (some 0)) := by
  refine ⟨rfl, by decide⟩

/-- C2 amended: against the empty (zero-column) dataset, only `top_n` returns
its natural empty result (the empty dict); `filter` (whose conditions are all
skipped, so the identity projection is attempted), `groupby` and `metric` all
raise a missing-column error.  The caller guards against this by refusing to
serve queries when the dataset is empty. -/
theorem c2_empty_dataset_degrades_only_topn :
    executePlan c2emptyDf c2topnPlan = .ok (.dict []) ∧
    executePlan c2emptyDf c2filterPlan = .error "KeyError: missing projection column" ∧
    executePlan c2emptyDf c2groupbyPlan = .error "KeyError: Status_Code" ∧
    executePlan c2emptyDf c2metricPlan = .error "KeyError: uses_https" := by
  refine ⟨rfl, rfl, rfl, rfl⟩

/-! ## C3 -/

/-- C3 counterexample: validating the empty draft against the question text of
the claim recovers exactly one condition, not two — the phrase https missing
matches none of the negation patterns (do not, not use, without), so only the
title-length rule fires. -/
theorem c3_recovery_yields_one_condition_not_two :
    ((validateAndNormalizePlan (.dict PlanObj.empty) c3q).toOption.map
      (fun p => (p.conditions.getD []).length)) = some 1 ∧
    ((validateAndNormalizePlan (.dict PlanObj.empty) c3q).toOption.map
      (fun p => (p.conditions.getD []).length)) ≠ some 2 := by
  refine ⟨rfl, by decide⟩

/-- C3 amended: validating the empty draft against that question text infers
operation filter, recovers exactly one condition — title_length greater than
60 — and sets logic to and. -/
theorem c3_empty_draft_recovers_title_condition :
    validateAndNormalizePlan (.dict PlanObj.empty) c3q =
      .ok ⟨some "filter", some [⟨"title_length", ">", .num 60⟩], some "and",
        Option.none, Option.none⟩ := by
  rfl

/-! ## C7 -/

/-- C7 counterexample: a filter draft with an explicitly supplied logic value
of or but empty conditions has that value replaced by the question-derived
logic — lexical recovery overwrites the explicit draft value. -/
theorem c7_explicit_logic_is_overwritten :
    c7draft.logic = some "or" ∧
    validateAndNormalizePlan (.dict c7draft) c7q =
      .ok ⟨some "filter", some [⟨"title_length", ">", .num 60⟩], some "and",
        Option.none, Option.none⟩ := by
  refine ⟨rfl, rfl⟩


/-! ## Validator lemmas and the validator / synthesiser claims -/

lemma except_bind_ok {α β : Type} {x : Except String α} {f : α → Except String β} {b : β}
    (h : (x >>= f) = .ok b) : ∃ a, x = .ok a ∧ f a = .ok b := by
  cases x with
  | error e => simp [Bind.bind, Except.bind] at h
  | ok a => exact ⟨a, rfl, by simpa [Bind.bind, Except.bind] using h⟩

lemma filterStep_ok_frame {p : PlanObj} {q : String} {r : PlanObj}
    (h : filterStep p q = .ok r) :
    r.operation = p.operation ∧ r.field = p.field ∧ r.n = p.n := by
  by_cases hop : p.operation = some "filter"
  · by_cases hc : (p.conditions.getD []).isEmpty
    · by_cases hrec : (recoverConditionsFromQuery q).1.isEmpty
      · simp [filterStep, hop, hc, hrec] at h
      · simp [filterStep, hop, hc, hrec] at h
        subst h
        exact ⟨by simp [hop], rfl, rfl⟩
    · by_cases hl : p.logic.isSome
      · simp [filterStep, hop, hc, hl] at h
        subst h
        exact ⟨rfl, rfl, rfl⟩
      · simp [filterStep, hop, hc, hl] at h
        subst h
        exact ⟨by simp [hop], rfl, rfl⟩
  · simp [filterStep, hop] at h
    subst h
    exact ⟨rfl, rfl, rfl⟩

lemma topnStep_ok_frame {p : PlanObj} {q : String} {r : PlanObj}
    (h : topnStep p q = .ok r) :
    r.operation = p.operation ∧ r.conditions = p.conditions ∧ r.logic = p.logic := by
  unfold topnStep at h
  split at h
  · split at h
    · injection h with h; subst h; exact ⟨rfl, rfl, rfl⟩
    · split at h
      · injection h with h; subst h; exact ⟨rfl, rfl, rfl⟩
      · exact absurd h (by simp)
  · injection h with h; subst h; exact ⟨rfl, rfl, rfl⟩

lemma groupMetricStep_ok_eq {p : PlanObj} {r : PlanObj}
    (h : groupMetricStep p = .ok r) : r = p := by
  unfold groupMetricStep at h
  split at h
  · split at h
    · injection h with h; exact h.symm
    · exact absurd h (by simp)
  · injection h with h; exact h.symm

lemma validate_dict_ok {p : PlanObj} {q : String} {r : PlanObj}
    (h : validateAndNormalizePlan (.dict p) q = .ok r) :
    ∃ p2 p3,
      filterStep (if p.operation.isSome then p
        else { p with operation := some (inferOperation p q) }) q = .ok p2 ∧
      topnStep p2 q = .ok p3 ∧ groupMetricStep p3 = .ok r := by
  unfold validateAndNormalizePlan at h
  dsimp only at h
  obtain ⟨p2, h2, h⟩ := except_bind_ok h
  obtain ⟨p3, h3, h⟩ := except_bind_ok h
  obtain ⟨p4, h4, h⟩ := except_bind_ok h
  simp only [pure, Except.pure] at h
  injection h with h
  subst h
  exact ⟨p2, p3, h2, h3, h4⟩

lemma validate_ok_operation {p : PlanObj} {q : String} {r : PlanObj}
    (h : validateAndNormalizePlan (.dict p) q = .ok r) :
    r.operation = (if p.operation.isSome then p.operation
                   else some (inferOperation p q)) := by
  obtain ⟨p2, p3, h2, h3, h4⟩ := validate_dict_ok h
  rw [(groupMetricStep_ok_eq h4), (topnStep_ok_frame h3).1, (filterStep_ok_frame h2).1]
  split <;> simp


lemma filterStep_ok_nonempty {p : PlanObj} {q : String} {r : PlanObj} {cs : List Cond}
    (hc : p.conditions = some cs) (hne : cs ≠ [])
    (h : filterStep p q = .ok r) :
    r.conditions = some cs ∧ (p.logic.isSome → r.logic = p.logic) := by
  have hcE : (p.conditions.getD []).isEmpty = false := by
    simp [hc, List.isEmpty_iff, hne]
  by_cases hop : p.operation = some "filter"
  · by_cases hl : p.logic.isSome
    · simp [filterStep, hop, hcE, hl] at h
      subst h
      exact ⟨hc, fun _ => rfl⟩
    · simp [filterStep, hop, hcE, hl] at h
      subst h
      refine ⟨hc, fun hfalse => absurd hfalse (by simp [hl])⟩
  · simp [filterStep, hop] at h
    subst h
    exact ⟨hc, fun _ => rfl⟩

lemma filterStep_ok_empty {p : PlanObj} {q : String} {r : PlanObj}
    (hop : p.operation = some "filter")
    (hc : p.conditions.getD [] = [])
    (h : filterStep p q = .ok r) :
    r.conditions = some (recoverConditionsFromQuery q).1 ∧
    r.logic = some (recoverConditionsFromQuery q).2 := by
  have hcE : (p.conditions.getD []).isEmpty = true := by simp [hc]
  by_cases hrec : (recoverConditionsFromQuery q).1.isEmpty
  · simp [filterStep, hop, hcE, hrec] at h
  · simp [filterStep, hop, hcE, hrec] at h
    subst h
    exact ⟨rfl, rfl⟩

/-- C6: with no `operation` key, the validator infers the operation by the
claimed priority: conditions present means filter; field and n present means
top_n; field alone means metric; otherwise the lexical cues in the lowercased
question text (top, then group, else filter).  In particular the draft with
only `field = status_code` validates to a metric plan. -/
theorem c6_operation_inference_priority :
    (∀ (p : PlanObj) (q : String) (r : PlanObj),
      p.operation = Option.none →
      validateAndNormalizePlan (.dict p) q = .ok r →
      r.operation = some (
        if p.conditions.isSome then "filter"
        else if p.field.isSome && p.n.isSome then "top_n"
        else if p.field.isSome then "metric"
        else if strContains (lowerStr q) "top" then "top_n"
        else if strContains (lowerStr q) "group" then "groupby"
        else "filter")) ∧
    validateAndNormalizePlan
        (.dict ⟨Option.none, Option.none, Option.none, some "status_code", Option.none⟩)
        "" =
      .ok ⟨some "metric", Option.none, Option.none, some "status_code", Option.none⟩ := by
  constructor
  · intro p q r hop h
    have hr := validate_ok_operation h
    rw [hop] at hr
    simpa [inferOperation] using hr
  · rfl

/-- C9: a draft whose operation is a string outside the four known operations
passes validation unchanged without raising, and executes to the empty
dict. -/
theorem c9_unknown_operation_passthrough :
    (∀ (p : PlanObj) (q : String) (op : String),
      p.operation = some op →
      op ≠ "filter" → op ≠ "top_n" → op ≠ "groupby" → op ≠ "metric" →
      validateAndNormalizePlan (.dict p) q = .ok p) ∧
    (∀ (df : Df) (p : PlanObj) (op : String),
      p.operation = some op →
      op ≠ "filter" → op ≠ "top_n" → op ≠ "groupby" → op ≠ "metric" →
      executePlan df p = .ok (.dict [])) := by
  constructor
  · intro p q op hop h1 h2 h3 h4
    simp [validateAndNormalizePlan, filterStep, topnStep, groupMetricStep, hop,
      h1, h2, h3, h4, Bind.bind, Except.bind, pure, Except.pure]
  · intro df p op hop h1 h2 h3 h4
    simp [executePlan, hop, h1, h2, h3, h4]

/-- C10: a non-dict draft is replaced by the empty dict — validation never
raises on the shape itself — and the operation of any successfully validated
result is then inferred from the question text alone. -/
theorem c10_non_dict_draft_replaced :
    (∀ q : String,
      validateAndNormalizePlan .notDict q =
        validateAndNormalizePlan (.dict PlanObj.empty) q) ∧
    (∀ (q : String) (r : PlanObj),
      validateAndNormalizePlan .notDict q = .ok r →
      r.operation = some (
        if strContains (lowerStr q) "top" then "top_n"
        else if strContains (lowerStr q) "group" then "groupby"
        else "filter")) := by
  constructor
  · intro q
    rfl
  · intro q r h
    have h2 : validateAndNormalizePlan (.dict PlanObj.empty) q = .ok r := h
    have hr := validate_ok_operation h2
    simpa [PlanObj.empty, inferOperation] using hr

/-- C7 amended: lexical recovery never touches a draft that already carries a
non-empty conditions list (its conditions and any explicit logic survive), but
when conditions are absent or empty the recovery overwrites both conditions
and logic, replacing even an explicitly supplied logic value with the
question-derived one. -/
theorem c7_recovery_fallback_behavior :
    (∀ (p : PlanObj) (q : String) (r : PlanObj) (cs : List Cond),
      p.conditions = some cs → cs ≠ [] →
      validateAndNormalizePlan (.dict p) q = .ok r →
      r.conditions = some cs ∧ (p.logic.isSome → r.logic = p.logic)) ∧
    (∀ (p : PlanObj) (q : String) (r : PlanObj),
      p.operation = some "filter" →
      p.conditions.getD [] = [] →
      validateAndNormalizePlan (.dict p) q = .ok r →
      r.conditions = some (recoverConditionsFromQuery q).1 ∧
      r.logic = some (recoverConditionsFromQuery q).2) := by
  constructor
  · intro p q r cs hc hne h
    obtain ⟨p2, p3, h2, h3, h4⟩ := validate_dict_ok h
    have hp1c : (if p.operation.isSome then p
        else { p with operation := some (inferOperation p q) }).conditions = some cs := by
      split <;> simpa using hc
    have hp1l : (if p.operation.isSome then p
        else { p with operation := some (inferOperation p q) }).logic = p.logic := by
      split <;> rfl
    have hf := filterStep_ok_nonempty hp1c hne h2
    have ht := topnStep_ok_frame h3
    have hg := groupMetricStep_ok_eq h4
    subst hg
    refine ⟨ht.2.1.trans hf.1, fun hl => ?_⟩
    rw [ht.2.2, (hf.2 (by rw [hp1l]; exact hl)), hp1l]
  · intro p q r hop hc h
    obtain ⟨p2, p3, h2, h3, h4⟩ := validate_dict_ok h
    rw [if_pos (by simp [hop])] at h2
    have hf := filterStep_ok_empty hop hc h2
    have ht := topnStep_ok_frame h3
    have hg := groupMetricStep_ok_eq h4
    subst hg
    exact ⟨ht.2.1.trans hf.1, ht.2.2.trans hf.2⟩


/-- A draft with only a non-empty conditions list. -/
def c6draft : PlanObj :=
  ⟨Option.none, some [⟨"https", "=", .bool false⟩], Option.none, Option.none, Option.none⟩

/-- The validated form of `c6draft`. -/
def c6res : PlanObj :=
  ⟨some "filter", some [⟨"https", "=", .bool false⟩], some "and", Option.none, Option.none⟩

theorem c6_witness :
    validateAndNormalizePlan (.dict c6draft) "" = .ok c6res ∧
    c6res.operation = some "filter" :=
  ⟨rfl, (c6_operation_inference_priority.1 c6draft "" c6res rfl rfl).trans (by rfl)⟩

/-- A filter draft with a non-empty conditions list and explicit logic. -/
def c7aDraft : PlanObj :=
  ⟨some "filter", some [⟨"https", "=", .bool false⟩], some "or", Option.none, Option.none⟩

/-- The validated form of `c7draft` against `c7q`. -/
def c7bRes : PlanObj :=
  ⟨some "filter", some [⟨"title_length", ">", .num 60⟩], some "and", Option.none, Option.none⟩

theorem c7_witness :
    (c7aDraft.conditions = some [⟨"https", "=", .bool false⟩] ∧
      (c7aDraft.logic.isSome → c7aDraft.logic = c7aDraft.logic)) ∧
    (c7bRes.conditions = some (recoverConditionsFromQuery c7q).1 ∧
      c7bRes.logic = some (recoverConditionsFromQuery c7q).2) :=
  ⟨c7_recovery_fallback_behavior.1 c7aDraft "" c7aDraft
      [⟨"https", "=", .bool false⟩] rfl (by decide) rfl,
   c7_recovery_fallback_behavior.2 c7draft c7q c7bRes rfl rfl rfl⟩

/-- A draft whose operation is outside the closed operation set. -/
def c9plan : PlanObj :=
  ⟨some "summarize", Option.none, Option.none, Option.none, Option.none⟩

/-- A small dataset for the unknown-operation execution witness. -/
def c9df : Df := ⟨["Address"], [[("Address", .str "https://x.example")]]⟩

theorem c9_witness :
    validateAndNormalizePlan (.dict c9plan) "" = .ok c9plan ∧
    executePlan c9df c9plan = .ok (.dict []) :=
  ⟨c9_unknown_operation_passthrough.1 c9plan "" "summarize" rfl
      (by decide) (by decide) (by decide) (by decide),
   c9_unknown_operation_passthrough.2 c9df c9plan "summarize" rfl
      (by decide) (by decide) (by decide) (by decide)⟩

/-- The validated form of the non-dict draft against a top-cue question. -/
def c10res : PlanObj :=
  ⟨some "top_n", Option.none, Option.none, some "status_code", some 10⟩

theorem c10_witness :
    validateAndNormalizePlan .notDict "top error pages" =
      validateAndNormalizePlan (.dict PlanObj.empty) "top error pages" ∧
    c10res.operation = some "top_n" :=
  ⟨c10_non_dict_draft_replaced.1 "top error pages",
   (c10_non_dict_draft_replaced.2 "top error pages" c10res rfl).trans (by rfl)⟩

/-- C8: if no collaborator response within the three-attempt budget survives
the emptiness check and parses, plan synthesis makes exactly three collaborator
calls and fails with the synthesis failure message; as soon as one attempt
parses, the parsed draft is returned and no further call is made. -/
theorem c8_synthesis_attempt_budget :
    (∀ (parse : String → Option Draft) (resp : Nat → String),
      (∀ i, i < 3 → synthStep parse (resp i) = Option.none) →
      planQuery parse resp = (.error "Failed to generate a valid query plan.", 3)) ∧
    (∀ (parse : String → Option Draft) (resp : Nat → String) (i : Nat) (d : Draft),
      i < 3 →
      (∀ j, j < i → synthStep parse (resp j) = Option.none) →
      synthStep parse (resp i) = some d →
      planQuery parse resp = (.ok d, i + 1)) := by
  constructor
  · intro parse resp h
    have h0 := h 0 (by omega)
    have h1 := h 1 (by omega)
    have h2 := h 2 (by omega)
    simp [planQuery, planQueryAux, h0, h1, h2]
  · intro parse resp i d hi hprev hstep
    interval_cases i
    · simp [planQuery, planQueryAux, hstep]
    · have h0 := hprev 0 (by omega)
      simp [planQuery, planQueryAux, h0, hstep]
    · have h0 := hprev 0 (by omega)
      have h1 := hprev 1 (by omega)
      simp [planQuery, planQueryAux, h0, h1, hstep]

/-- A parse that always fails and a collaborator that always answers with the
empty string. -/
def c8parseNone : String → Option Draft := fun _ => Option.none

/-- The always-empty collaborator. -/
def c8respEmpty : Nat → String := fun _ => ""

/-- A parse that always succeeds with the empty dict. -/
def c8parseOk : String → Option Draft := fun _ => some (.dict PlanObj.empty)

/-- A collaborator whose responses are non-empty. -/
def c8respX : Nat → String := fun _ => "x"

theorem c8_witness :
    planQuery c8parseNone c8respEmpty =
      (.error "Failed to generate a valid query plan.", 3) ∧
    planQuery c8parseOk c8respX = (.ok (.dict PlanObj.empty), 1) :=
  ⟨c8_synthesis_attempt_budget.1 c8parseNone c8respEmpty (fun i _ => rfl),
   c8_synthesis_attempt_budget.2 c8parseOk c8respX 0 (.dict PlanObj.empty) (by omega)
     (fun j hj => absurd hj (Nat.not_lt_zero j)) rfl⟩



/-! ## Filter semantics (C5) -/

/-- A condition field resolves through the Field Catalog to a column present
in the dataframe. -/
def resolvesToColumn (df : Df) (c : Cond) : Bool :=
  match FIELD_MAP.lookup c.field with
  | some col => df.schema.contains col
  | Option.none => false

/-- Row-level truth of one condition (for conditions whose comparison does not
raise; a raising comparison is excluded by `condMaskOk`). -/
def condHolds (c : Cond) (r : List (String × Value)) : Bool :=
  match FIELD_MAP.lookup c.field with
  | some col =>
    if c.op = "=" then cmpEq (getCellD r col) c.value
    else if c.op = ">" then ((cmpGt (getCellD r col) c.value).toOption).getD false
    else ((cmpLt (getCellD r col) c.value).toOption).getD false
  | Option.none => false

/-- The mask computation of a condition raises no Python exception. -/
def condMaskOk (df : Df) (c : Cond) : Bool :=
  match condMask df c with
  | .ok _ => true
  | .error _ => false

/-- Following the words of the specification: conditions that do not resolve
to an existing column are dropped; with no usable condition the result is all
rows; otherwise rows are kept per the conjunction (logic and) or disjunction
(logic or) of the usable conditions. -/
def filterSpecRows (df : Df) (conds : List Cond) (logic : String) :
    List (List (String × Value)) :=
  let usable := conds.filter (fun c => resolvesToColumn df c)
  if usable.isEmpty then df.rows
  else
    df.rows.filter (fun r =>
      if logic = "or" then usable.any (fun c => condHolds c r)
      else usable.all (fun c => condHolds c r))

lemma mapM_ok_eq {α β : Type} {f : α → Except String β} (d : β) :
    ∀ {xs : List α} {ys : List β}, xs.mapM f = .ok ys →
      ys = xs.map (fun x => ((f x).toOption).getD d) := by
  intro xs
  induction xs with
  | nil =>
    intro ys h
    simp only [List.mapM_nil, pure, Except.pure] at h
    injection h with h
    simp [h.symm]
  | cons x xs ih =>
    intro ys h
    rw [List.mapM_cons] at h
    obtain ⟨y, hy, h⟩ := except_bind_ok h
    obtain ⟨ys2, hys, h⟩ := except_bind_ok h
    simp only [pure, Except.pure] at h
    injection h with h
    subst h
    simp [hy, ih hys, Except.toOption]

lemma condMask_eval {df : Df} {c : Cond}
    (hop : c.op = "=" ∨ c.op = ">" ∨ c.op = "<")
    (hok : condMaskOk df c = true) :
    condMask df c =
      .ok (if resolvesToColumn df c then
        some (df.rows.map (fun r => condHolds c r)) else Option.none) := by
  have hne1 : ¬(((">") : String) = "=") := by decide
  have hne2 : ¬((("<") : String) = "=") := by decide
  have hne3 : ¬((("<") : String) = ">") := by decide
  cases hl : FIELD_MAP.lookup c.field with
  | none => simp [condMask, resolvesToColumn, hl]
  | some col =>
    by_cases hcol : df.schema.contains col = true
    · rcases hop with h | h | h
      · simp only [condMask, condHolds, resolvesToColumn, hl, hcol, h,
          eq_self_iff_true, if_true]
      · cases hm : df.rows.mapM (fun r => cmpGt (getCellD r col) c.value) with
        | error e =>
          exfalso
          have hfalse : condMaskOk df c = false := by
            unfold condMaskOk condMask
            simp only [hl, hcol, h, eq_self_iff_true, if_true, if_neg hne1]
            rw [hm]
            rfl
          rw [hok] at hfalse
          exact Bool.noConfusion hfalse
        | ok ys =>
          simp only [condMask, condHolds, resolvesToColumn, hl, hcol, h,
            eq_self_iff_true, if_true, if_neg hne1]
          rw [hm]
          exact congrArg Except.ok (congrArg some (mapM_ok_eq false hm))
      · cases hm : df.rows.mapM (fun r => cmpLt (getCellD r col) c.value) with
        | error e =>
          exfalso
          have hfalse : condMaskOk df c = false := by
            unfold condMaskOk condMask
            simp only [hl, hcol, h, eq_self_iff_true, if_true, if_neg hne2, if_neg hne3]
            rw [hm]
            rfl
          rw [hok] at hfalse
          exact Bool.noConfusion hfalse
        | ok ys =>
          simp only [condMask, condHolds, resolvesToColumn, hl, hcol, h,
            eq_self_iff_true, if_true, if_neg hne2, if_neg hne3]
          rw [hm]
          exact congrArg Except.ok (congrArg some (mapM_ok_eq false hm))
    · simp only [Bool.not_eq_true] at hcol
      simp only [condMask, resolvesToColumn, hl, hcol, Bool.false_eq_true, if_false]

lemma buildMasks_ok {df : Df} : ∀ {conds : List Cond},
    (∀ c ∈ conds, c.op = "=" ∨ c.op = ">" ∨ c.op = "<") →
    (∀ c ∈ conds, condMaskOk df c = true) →
    buildMasks df conds =
      .ok ((conds.filter (fun c => resolvesToColumn df c)).map
        (fun c => df.rows.map (fun r => condHolds c r))) := by
  intro conds
  induction conds with
  | nil => intro _ _; rfl
  | cons c cs ih =>
    intro hops hoks
    have hc := condMask_eval (hops c (by simp)) (hoks c (by simp))
    have hcs := ih (fun x hx => hops x (by simp [hx])) (fun x hx => hoks x (by simp [hx]))
    unfold buildMasks
    rw [hc, hcs]
    by_cases hres : resolvesToColumn df c = true
    · simp [hres, Bind.bind, Except.bind, pure, Except.pure, List.filter_cons]
    · simp [hres, Bind.bind, Except.bind, pure, Except.pure, List.filter_cons]

lemma zipWith_map_same {ρ : Type} (g : Bool → Bool → Bool) (f1 f2 : ρ → Bool)
    (l : List ρ) :
    List.zipWith g (l.map f1) (l.map f2) = l.map (fun r => g (f1 r) (f2 r)) := by
  induction l with
  | nil => rfl
  | cons r rs ih => simp [ih]

lemma foldl_andMask {ρ σ : Type} (rows : List ρ) (f : σ → ρ → Bool) :
    ∀ (cs : List σ) (m : ρ → Bool),
    (cs.map (fun c => rows.map (f c))).foldl andMask (rows.map m) =
      rows.map (fun r => cs.foldl (fun b c => b && f c r) (m r)) := by
  intro cs
  induction cs with
  | nil => intro m; rfl
  | cons c cs ih =>
    intro m
    simp only [List.map_cons, List.foldl_cons]
    rw [show andMask (rows.map m) (rows.map (f c)) =
        rows.map (fun r => m r && f c r) from zipWith_map_same _ _ _ rows]
    exact ih (fun r => m r && f c r)

lemma foldl_orMask {ρ σ : Type} (rows : List ρ) (f : σ → ρ → Bool) :
    ∀ (cs : List σ) (m : ρ → Bool),
    (cs.map (fun c => rows.map (f c))).foldl orMask (rows.map m) =
      rows.map (fun r => cs.foldl (fun b c => b || f c r) (m r)) := by
  intro cs
  induction cs with
  | nil => intro m; rfl
  | cons c cs ih =>
    intro m
    simp only [List.map_cons, List.foldl_cons]
    rw [show orMask (rows.map m) (rows.map (f c)) =
        rows.map (fun r => m r || f c r) from zipWith_map_same _ _ _ rows]
    exact ih (fun r => m r || f c r)

lemma foldl_and_eq_all {σ : Type} (f : σ → Bool) :
    ∀ (l : List σ) (a : Bool), l.foldl (fun b c => b && f c) a = (a && l.all f) := by
  intro l
  induction l with
  | nil => intro a; simp
  | cons c cs ih => intro a; simp [List.all_cons, ih, Bool.and_assoc]

lemma foldl_or_eq_any {σ : Type} (f : σ → Bool) :
    ∀ (l : List σ) (a : Bool), l.foldl (fun b c => b || f c) a = (a || l.any f) := by
  intro l
  induction l with
  | nil => intro a; simp
  | cons c cs ih => intro a; simp [List.any_cons, ih, Bool.or_assoc]

lemma applyMask_map {ρ : Type} (p : ρ → Bool) :
    ∀ (rows : List ρ), applyMask rows (rows.map p) = rows.filter p := by
  intro rows
  induction rows with
  | nil => rfl
  | cons r rs ih =>
    by_cases h : p r <;>
      simp [applyMask, List.filter_cons, h] <;>
      simpa [applyMask] using ih


/-- C5: in a filter plan, a condition whose field does not resolve to an
existing column contributes no mask; the surviving masks combine by
intersection for logic and, union for logic or; and with no usable mask the
result is every row projected on the URL identity column, in dataset order.
`filterSpecRows` states those words; the theorem shows the engine computes
exactly that. -/
theorem c5_filter_skip_and_combine :
    ∀ (df : Df) (plan : PlanObj) (conds : List Cond),
      plan.operation = some "filter" →
      plan.conditions = some conds →
      df.schema.contains "Address" = true →
      (∀ c ∈ conds, c.op = "=" ∨ c.op = ">" ∨ c.op = "<") →
      (∀ c ∈ conds, condMaskOk df c = true) →
      executePlan df plan =
        .ok (.table ["Address"]
          ((filterSpecRows df conds (plan.logic.getD "and")).map
            (fun r => [getCellD r "Address"]))) := by
  intro df plan conds hop hc hA hops hoks
  have hmem : "Address" ∈ df.schema := by simpa using hA
  have hb := buildMasks_ok hops hoks
  unfold executePlan
  rw [if_pos hop, hc]
  dsimp only
  rw [hb]
  simp only [Bind.bind, Except.bind]
  cases husable : conds.filter (fun c => resolvesToColumn df c) with
  | nil =>
    simp [projectRows, hA, hmem, filterSpecRows, husable]
  | cons u us =>
    simp only [List.map_cons]
    by_cases hlog : plan.logic.getD "and" = "or"
    · rw [if_pos hlog]
      rw [foldl_orMask df.rows (fun c r => condHolds c r) us (fun r => condHolds u r)]
      rw [applyMask_map]
      simp only [projectRows, filterSpecRows, husable, hlog]
      have hfc : df.rows.filter
          (fun r => List.foldl (fun b c => b || condHolds c r) (condHolds u r) us) =
          df.rows.filter (fun r => condHolds u r || us.any (fun c => condHolds c r)) :=
        List.filter_congr (fun r _ => by rw [foldl_or_eq_any])
      rw [hfc]
      simp [hA, hmem]
    · rw [if_neg hlog]
      rw [foldl_andMask df.rows (fun c r => condHolds c r) us (fun r => condHolds u r)]
      rw [applyMask_map]
      simp only [projectRows, filterSpecRows, husable, hlog]
      have hfc : df.rows.filter
          (fun r => List.foldl (fun b c => b && condHolds c r) (condHolds u r) us) =
          df.rows.filter (fun r => condHolds u r && us.all (fun c => condHolds c r)) :=
        List.filter_congr (fun r _ => by rw [foldl_and_eq_all])
      rw [hfc]
      simp [hA, hmem]



/-! ## Witness data for the filter-semantics claim -/

/-- A three-row dataset lacking the title-length column. -/
def c5df : Df :=
  ⟨["Address", "uses_https", "Status_Code"],
   [[("Address", .str "u1"), ("uses_https", .bool true), ("Status_Code", .num 200)],
    [("Address", .str "u2"), ("uses_https", .bool false), ("Status_Code", .num 404)],
    [("Address", .str "u3"), ("uses_https", .bool false), ("Status_Code", .num 500)]]⟩

/-- Two resolvable conditions and one condition whose column is absent. -/
def c5conds : List Cond :=
  [⟨"https", "=", .bool false⟩, ⟨"status_code", ">", .num 400⟩,
   ⟨"title_length", ">", .num 60⟩]

/-- The filter plan over `c5conds` with logic and. -/
def c5plan : PlanObj :=
  ⟨some "filter", some c5conds, some "and", Option.none, Option.none⟩

theorem c5_witness :
    executePlan c5df c5plan =
      .ok (.table ["Address"]
        ((filterSpecRows c5df c5conds (c5plan.logic.getD "and")).map
          (fun r => [getCellD r "Address"]))) ∧
    executePlan c5df c5plan = .ok (.table ["Address"] [[.str "u2"], [.str "u3"]]) :=
  ⟨c5_filter_skip_and_combine c5df c5plan c5conds rfl rfl rfl (by decide) (by decide),
   by rfl⟩

end SeoSpec
